import Mathlib

/-!
Shallow embedding of `gym_minigrid/envs/risky.py`, class `RiskyPathEnv`:
the reward-specification validation performed by `__init__`, the grid
generation of `_gen_grid`, and the step state machine of `step`.

Coordinates, room dimensions and action codes are integers, as in the
Python source; the step counter and the step horizon are natural numbers
(both are non-negative integers in every construction path of the source).
-/

namespace RiskyPath

/-- Tile kinds stored in the environment's grid. `empty` models a cell the
grid stores as `None`. -/
inductive Tile
  | empty
  | wall
  | goal
  | lava
  | spiky
deriving DecidableEq

/-- Modelled from the spec: the overlap predicate of the grid collaborator
(`can_overlap` of the tile classes in `gym_minigrid/minigrid.py`, a file the
sources do not contain). Goal, lava and risky-floor tiles permit overlap;
wall tiles do not. An `empty` cell is handled separately by `step`
(`fwd_cell == None`), so its value here is never consulted alone. -/
def Tile.can_overlap : Tile → Bool
  | Tile.wall => false
  | _ => true

/-- A Python value stored in the reward-specification dictionary: an int or
a bool (`DEFAULT_REWARDS` holds both kinds). -/
inductive RVal
  | i (n : Int)
  | b (v : Bool)
deriving DecidableEq

/-- Numeric value of a reward entry; Python adds `True`/`False` as `1`/`0`. -/
def RVal.toInt : RVal → Int
  | RVal.i n => n
  | RVal.b v => if v then 1 else 0

/-- Python truthiness of a reward entry, as used by `if self.reward_spec[ABSORBING_STATES]:`. -/
def RVal.truthy : RVal → Bool
  | RVal.i n => n != 0
  | RVal.b v => v

/-- String constant `STEP_PENALTY` of `risky.py`. -/
def STEP_PENALTY : String := "step_penalty"

/-- String constant `GOAL_REWARD` of `risky.py`. -/
def GOAL_REWARD : String := "goal_reward"

/-- String constant `ABSORBING_STATES` of `risky.py`. -/
def ABSORBING_STATES : String := "absorbing_states"

/-- String constant `ABSORBING_REWARD_GOAL` of `risky.py`. -/
def ABSORBING_REWARD_GOAL : String := "absorbing_reward_goal"

/-- String constant `ABSORBING_REWARD_LAVA` of `risky.py`. -/
def ABSORBING_REWARD_LAVA : String := "absorbing_reward_lava"

/-- String constant `RISKY_TILE_REWARD` of `risky.py`. -/
def RISKY_TILE_REWARD : String := "risky_tile_reward"

/-- String constant `LAVA_REWARD` of `risky.py`. -/
def LAVA_REWARD : String := "lava_reward"

/-- A reward specification: a finite string-keyed dictionary, embedded as an
association list. -/
def RewardSpec : Type := List (String × RVal)

/-- The module-level `DEFAULT_REWARDS` dictionary of `risky.py`, verbatim:
note that it contains six entries and that `ABSORBING_REWARD_LAVA` is not
among them. -/
def DEFAULT_REWARDS : RewardSpec :=
  [(STEP_PENALTY, RVal.i 0),
   (GOAL_REWARD, RVal.i 1),
   (ABSORBING_STATES, RVal.b false),
   (ABSORBING_REWARD_GOAL, RVal.i 0),
   (RISKY_TILE_REWARD, RVal.i 0),
   (LAVA_REWARD, RVal.i (-1))]

/-- Dictionary lookup `spec[k]`: `Except.error` models the `KeyError` a
missing key raises. -/
def getKey (spec : RewardSpec) (k : String) : Except String RVal :=
  match List.lookup k spec with
  | some v => Except.ok v
  | none => Except.error ("KeyError: " ++ k)

/-- Key set of a reward specification. -/
def specKeys (spec : RewardSpec) : List String :=
  spec.map Prod.fst

/-- The assertion `reward_spec.keys() == DEFAULT_REWARDS.keys()` of
`__init__`: Python compares dictionary key views as sets. -/
def sameKeys (spec : RewardSpec) : Bool :=
  (specKeys spec).all (fun k => (specKeys DEFAULT_REWARDS).contains k) &&
    (specKeys DEFAULT_REWARDS).all (fun k => (specKeys spec).contains k)

/-- Python `range(a, b)` over integers, as a list. -/
def intRange (a b : Int) : List Int :=
  (List.range (b - a).toNat).map (fun i => a + i)

/-- Python `range(a, b, -1)` over integers, as a list. -/
def intRangeDown (a b : Int) : List Int :=
  (List.range (a - b).toNat).map (fun i => a - i)

/-- The default lava positions computed by `__init__` when
`lava_positions is None`: `(1, y)` for `y in range(1, height-1)`, then
`(3, y)` for `y in range(height-3, height-8, -1)`, then
`(6, height-5)` and `(6, height-6)`. -/
def defaultLava (height : Int) : List (Int × Int) :=
  (intRange 1 (height - 1)).map (fun y => ((1 : Int), y)) ++
    (intRangeDown (height - 3) (height - 8)).map (fun y => ((3 : Int), y)) ++
    [(6, height - 5), (6, height - 6)]

/-- The default spiky positions computed by `__init__` when
`spiky_positions is None`: `(2, y)` for `y in range(1, height-2)`. -/
def defaultSpiky (height : Int) : List (Int × Int) :=
  (intRange 1 (height - 2)).map (fun y => ((2 : Int), y))

/-- The constructor arguments of `RiskyPathEnv.__init__` (those the step
state machine and the grid generator consume; `seed` feeds only the random
number generator, which nothing in this environment uses). -/
structure Config where
  width : Int
  height : Int
  show_agent_dir : Bool
  agent_start_pos : Int × Int
  goal_positions : List (Int × Int)
  lava_positions : Option (List (Int × Int))
  spiky_positions : Option (List (Int × Int))
  reward_spec : RewardSpec
  slip_proba : ℚ
  max_steps : Nat

/-- The effective lava position list: the default pattern when the argument
is `None`, the argument itself otherwise. -/
def lavaEff (cfg : Config) : List (Int × Int) :=
  match cfg.lava_positions with
  | none => defaultLava cfg.height
  | some ps => ps

/-- The effective spiky position list: the default pattern when the argument
is `None`, the argument itself otherwise. -/
def spikyEff (cfg : Config) : List (Int × Int) :=
  match cfg.spiky_positions with
  | none => defaultSpiky cfg.height
  | some ps => ps

/-- The grid storage: a tile for every coordinate. The sources never read a
coordinate outside the `width × height` rectangle (the wall ring blocks the
agent), so the value there is irrelevant. -/
def Grid : Type := (Int × Int) → Tile

/-- `put_obj(obj, x, y)`: overwrite the tile stored at one coordinate. -/
def putObj (g : Grid) (t : Tile) (p : Int × Int) : Grid :=
  fun q => if q = p then t else g q

/-- `self.grid.wall_rect(0, 0, width, height)`: write wall tiles along the
border of the `width × height` rectangle. -/
def wallRect (g : Grid) (width height : Int) : Grid :=
  fun q =>
    if (0 ≤ q.1 ∧ q.1 < width ∧ (q.2 = 0 ∨ q.2 = height - 1)) ∨
        (0 ≤ q.2 ∧ q.2 < height ∧ (q.1 = 0 ∨ q.1 = width - 1)) then
      Tile.wall
    else g q

/-- Write one tile kind at every position of a list, in list order. -/
def putAll (g : Grid) (t : Tile) (ps : List (Int × Int)) : Grid :=
  ps.foldl (fun g p => putObj g t p) g

/-- `_gen_grid`: an empty grid, the wall ring, then lava tiles, then spiky
tiles, then goal tiles, in exactly that write order. -/
def genGrid (width height : Int) (goals lava spiky : List (Int × Int)) : Grid :=
  putAll (putAll (putAll (wallRect (fun _ => Tile.empty) width height) Tile.lava lava)
      Tile.spiky spiky)
    Tile.goal goals

/-- The environment state after construction/reset: configuration fields the
step machine reads, the position lists the grid was generated from, and the
mutable episode state (`agent_pos`, `agent_dir`, `step_count`). -/
structure Env where
  width : Int
  height : Int
  reward_spec : RewardSpec
  max_steps : Nat
  goal_positions : List (Int × Int)
  lava_positions : List (Int × Int)
  spiky_positions : List (Int × Int)
  agent_pos : Int × Int
  agent_dir : Int
  step_count : Nat

/-- `self.grid.get(x, y)` on the grid `_gen_grid` generated: the grid is
written once per reset and never mutated during an episode, so reading it
is reading `genGrid` of the stored position lists at the queried point. -/
def Env.gridAt (env : Env) (p : Int × Int) : Tile :=
  genGrid env.width env.height env.goal_positions env.lava_positions env.spiky_positions p

/-- Build the freshly reset environment a successful `__init__` returns:
`_gen_grid` has run, the agent sits at the start position facing up
(`agent_dir = 3`), and the step counter is zero. -/
def buildEnv (cfg : Config) : Env :=
  { width := cfg.width
    height := cfg.height
    reward_spec := cfg.reward_spec
    max_steps := cfg.max_steps
    goal_positions := cfg.goal_positions
    lava_positions := lavaEff cfg
    spiky_positions := spikyEff cfg
    agent_pos := cfg.agent_start_pos
    agent_dir := 3
    step_count := 0 }

/-- `RiskyPathEnv.__init__`: the constructor-time assertions, in source
order (sizes, reward keys, slip probability, start-position bounds, start
not in goals, start not in the effective lava list), then the built
environment. The Python `type(...) is tuple` and `type(...) is int` checks
hold by typing here. An `Except.error` models an `AssertionError`
(`InvalidConfiguration` in the spec's terms). -/
def init (cfg : Config) : Except String Env :=
  if ¬ (6 ≤ cfg.width ∧ 6 ≤ cfg.height) then
    Except.error "InvalidConfiguration: size"
  else if ¬ sameKeys cfg.reward_spec then
    Except.error "InvalidConfiguration: reward keys"
  else if ¬ (0 ≤ cfg.slip_proba ∧ cfg.slip_proba < 1) then
    Except.error "InvalidConfiguration: slip probability"
  else if ¬ (1 < cfg.agent_start_pos.1 ∧ cfg.agent_start_pos.1 < cfg.width - 1) then
    Except.error "InvalidConfiguration: start x"
  else if ¬ (1 < cfg.agent_start_pos.2 ∧ cfg.agent_start_pos.2 < cfg.height - 1) then
    Except.error "InvalidConfiguration: start y"
  else if cfg.agent_start_pos ∈ cfg.goal_positions then
    Except.error "InvalidConfiguration: agent in goal position"
  else if cfg.agent_start_pos ∈ lavaEff cfg then
    Except.error "InvalidConfiguration: agent in lava position"
  else
    Except.ok (buildEnv cfg)

/-- Modelled from the spec: the direction-to-vector convention shared with
the grid layer (`DIR_TO_VEC` of `gym_minigrid/minigrid.py`, absent from the
sources): 0 = east `(1,0)`, 1 = south `(0,1)`, 2 = west `(-1,0)`,
3 = north `(0,-1)`; the y axis grows downward. -/
def DIR_TO_VEC (d : Int) : Int × Int :=
  if d = 0 then (1, 0)
  else if d = 1 then (0, 1)
  else if d = 2 then (-1, 0)
  else (0, -1)

/-- `self.front_pos`: the cell one unit away in the given heading. -/
def frontPos (p : Int × Int) (d : Int) : Int × Int :=
  (p.1 + (DIR_TO_VEC d).1, p.2 + (DIR_TO_VEC d).2)

/-- The heading assigned by the action dispatch of `step`
(west→2, north→3, east→0, south→1); `none` models the
`assert False, "Unknown action."` branch. -/
def newDir (action : Int) : Option Int :=
  if action = 0 then some 2
  else if action = 1 then some 3
  else if action = 2 then some 0
  else if action = 3 then some 1
  else none

/-- The three sequential reward/termination `if` blocks of `step`, applied
to the resolved forward cell, starting from the reward accumulated so far
(`reward0`, the step penalty). Each block reads the dictionary entries the
source reads and may therefore raise a `KeyError`. -/
def rewardDone (spec : RewardSpec) (cell : Tile) (reward0 : Int) :
    Except String (Int × Bool) :=
  let step1 : Except String (Int × Bool) :=
    if cell = Tile.goal then
      match getKey spec ABSORBING_STATES with
      | Except.error e => Except.error e
      | Except.ok av =>
        if av.truthy then
          match getKey spec ABSORBING_REWARD_GOAL with
          | Except.error e => Except.error e
          | Except.ok v => Except.ok (reward0 + v.toInt, false)
        else
          match getKey spec GOAL_REWARD with
          | Except.error e => Except.error e
          | Except.ok v => Except.ok (reward0 + v.toInt, true)
    else Except.ok (reward0, false)
  match step1 with
  | Except.error e => Except.error e
  | Except.ok s1 =>
    let step2 : Except String (Int × Bool) :=
      if cell = Tile.lava then
        match getKey spec ABSORBING_STATES with
        | Except.error e => Except.error e
        | Except.ok av =>
          if av.truthy then
            match getKey spec ABSORBING_REWARD_LAVA with
            | Except.error e => Except.error e
            | Except.ok v => Except.ok (s1.1 + v.toInt, s1.2)
          else
            match getKey spec LAVA_REWARD with
            | Except.error e => Except.error e
            | Except.ok v => Except.ok (s1.1 + v.toInt, true)
      else Except.ok s1
    match step2 with
    | Except.error e => Except.error e
    | Except.ok s2 =>
      if cell = Tile.spiky then
        match getKey spec RISKY_TILE_REWARD with
        | Except.error e => Except.error e
        | Except.ok v => Except.ok (s2.1 + v.toInt, s2.2)
      else Except.ok s2

/-- The state mutation of the movement phase of `step`: the heading becomes
`d` unconditionally, and the agent's position becomes the forward cell when
that cell is empty (`None`) or permits overlap. -/
def moveEnv (env1 : Env) (d : Int) : Env :=
  if env1.gridAt (frontPos env1.agent_pos d) = Tile.empty ∨
      (env1.gridAt (frontPos env1.agent_pos d)).can_overlap = true then
    { env1 with agent_dir := d, agent_pos := frontPos env1.agent_pos d }
  else
    { env1 with agent_dir := d }

/-- The body of `step` after `self.step_count += 1`: read the step penalty
(a `KeyError` here aborts before the heading changes), dispatch the action
to a heading (an unknown action aborts here, after the counter increment),
resolve the forward cell, move if the cell is empty or permits overlap,
compute reward and termination, and finally apply the horizon check. The
returned `Env` carries every mutation the source performed before a raise. -/
def stepCore (env1 : Env) (action : Int) : Env × Except String (Int × Bool) :=
  match getKey env1.reward_spec STEP_PENALTY with
  | Except.error e => (env1, Except.error e)
  | Except.ok pv =>
    match newDir action with
    | none => (env1, Except.error "AssertionError: Unknown action.")
    | some d =>
      match rewardDone (moveEnv env1 d).reward_spec
          (env1.gridAt (frontPos env1.agent_pos d)) pv.toInt with
      | Except.error e => (moveEnv env1 d, Except.error e)
      | Except.ok rd =>
        (moveEnv env1 d,
          Except.ok (rd.1,
            rd.2 || decide ((moveEnv env1 d).max_steps ≤ (moveEnv env1 d).step_count)))

/-- `RiskyPathEnv.step`: increment the step counter first, then run the
rest of the body. The observation (`gen_obs`) and the empty info dictionary
are opaque to every property here and are omitted from the result. -/
def stepFull (env0 : Env) (action : Int) : Env × Except String (Int × Bool) :=
  stepCore { env0 with step_count := env0.step_count + 1 } action

/-- Run a list of actions from a state, threading the environment and
collecting each call's `(reward, done)` pair; stop at the first raise. -/
def runSteps (env : Env) : List Int → Except String (Env × List (Int × Bool))
  | [] => Except.ok (env, [])
  | a :: as =>
    match stepFull env a with
    | (_, Except.error e) => Except.error e
    | (env1, Except.ok rd) =>
      match runSteps env1 as with
      | Except.error e => Except.error e
      | Except.ok (envf, rs) => Except.ok (envf, rd :: rs)

/-- Total accumulated reward of a list of step results. -/
def totalReward (rs : List (Int × Bool)) : Int :=
  (rs.map Prod.fst).sum

/-- The default constructor arguments of `RiskyPathEnv.__init__`. -/
def defaultCfg : Config :=
  { width := 11
    height := 11
    show_agent_dir := true
    agent_start_pos := (2, 9)
    goal_positions := [(1, 3)]
    lava_positions := none
    spiky_positions := none
    reward_spec := DEFAULT_REWARDS
    slip_proba := 0
    max_steps := 150 }

/-- The environment the default construction returns. -/
def defaultEnv : Env := buildEnv defaultCfg

/-- A default-configuration environment state with the given step count,
agent position and heading: the states the episode of `defaultCfg` moves
through. -/
def trEnv (n : Nat) (p : Int × Int) (d : Int) : Env :=
  { defaultEnv with agent_pos := p, agent_dir := d, step_count := n }

/-- The reward specification with exactly the seven keys the spec names,
`ABSORBING_REWARD_LAVA` included. -/
def sevenKeySpec : RewardSpec :=
  [(STEP_PENALTY, RVal.i 0),
   (GOAL_REWARD, RVal.i 1),
   (ABSORBING_STATES, RVal.b false),
   (ABSORBING_REWARD_GOAL, RVal.i 0),
   (ABSORBING_REWARD_LAVA, RVal.i 0),
   (RISKY_TILE_REWARD, RVal.i 0),
   (LAVA_REWARD, RVal.i (-1))]

/-- `DEFAULT_REWARDS` with the `RISKY_TILE_REWARD` key omitted: the spec's
example of a reward specification with a missing key. -/
def fiveKeySpec : RewardSpec :=
  [(STEP_PENALTY, RVal.i 0),
   (GOAL_REWARD, RVal.i 1),
   (ABSORBING_STATES, RVal.b false),
   (ABSORBING_REWARD_GOAL, RVal.i 0),
   (LAVA_REWARD, RVal.i (-1))]

/-- The default configuration with the seven-key reward specification. -/
def sevenKeyCfg : Config := { defaultCfg with reward_spec := sevenKeySpec }

/-- The default configuration with the five-key reward specification. -/
def fiveKeyCfg : Config := { defaultCfg with reward_spec := fiveKeySpec }

/-- A reward specification that passes the key validation (its key set is
exactly that of `DEFAULT_REWARDS`) and turns absorbing-states mode on. -/
def absorbingSpec : RewardSpec :=
  [(STEP_PENALTY, RVal.i 0),
   (GOAL_REWARD, RVal.i 1),
   (ABSORBING_STATES, RVal.b true),
   (ABSORBING_REWARD_GOAL, RVal.i 0),
   (RISKY_TILE_REWARD, RVal.i 0),
   (LAVA_REWARD, RVal.i (-1))]

/-- The default configuration with absorbing-states mode turned on. -/
def absorbingCfg : Config := { defaultCfg with reward_spec := absorbingSpec }

/-- The environment `absorbingCfg` constructs. -/
def absorbingEnv : Env := buildEnv absorbingCfg

/-- The default configuration with a step horizon of one. -/
def maxOneCfg : Config := { defaultCfg with max_steps := 1 }

/-- The environment `maxOneCfg` constructs. -/
def maxOneEnv : Env := buildEnv maxOneCfg

/-- Whether a step result is a raise. -/
def isError (r : Except String (Int × Bool)) : Bool :=
  match r with
  | Except.error _ => true
  | Except.ok _ => false

/-- The tile-specific reward contribution of a resolved forward cell: the
single clause of `step` that the cell's kind selects (none for empty and
wall cells). A cell has exactly one kind, so at most one clause ever
contributes. -/
def contribOf (spec : RewardSpec) (cell : Tile) : Except String Int :=
  match cell with
  | Tile.goal =>
    match getKey spec ABSORBING_STATES with
    | Except.error e => Except.error e
    | Except.ok av =>
      if av.truthy then
        match getKey spec ABSORBING_REWARD_GOAL with
        | Except.error e => Except.error e
        | Except.ok v => Except.ok v.toInt
      else
        match getKey spec GOAL_REWARD with
        | Except.error e => Except.error e
        | Except.ok v => Except.ok v.toInt
  | Tile.lava =>
    match getKey spec ABSORBING_STATES with
    | Except.error e => Except.error e
    | Except.ok av =>
      if av.truthy then
        match getKey spec ABSORBING_REWARD_LAVA with
        | Except.error e => Except.error e
        | Except.ok v => Except.ok v.toInt
      else
        match getKey spec LAVA_REWARD with
        | Except.error e => Except.error e
        | Except.ok v => Except.ok v.toInt
  | Tile.spiky =>
    match getKey spec RISKY_TILE_REWARD with
    | Except.error e => Except.error e
    | Except.ok v => Except.ok v.toInt
  | _ => Except.ok 0

/-- Claim C1: the required key set the constructor enforces is
`DEFAULT_REWARDS.keys()`, which omits `absorbing_reward_lava`; the seven-key
set the spec names is therefore rejected as having an extra key, while the
code's own constant `ABSORBING_REWARD_LAVA` has no entry in
`DEFAULT_REWARDS` even though `step` reads it. A missing key
(`risky_tile_reward` omitted) is also rejected, and the six-key default
passes. -/
theorem rewardKeys_code_bug :
    init sevenKeyCfg = Except.error "InvalidConfiguration: reward keys" ∧
    init fiveKeyCfg = Except.error "InvalidConfiguration: reward keys" ∧
    List.lookup ABSORBING_REWARD_LAVA DEFAULT_REWARDS = none ∧
    sameKeys DEFAULT_REWARDS = true :=
  ⟨rfl, rfl, rfl, rfl⟩

/-- Claim C2: with a validated reward specification that turns
absorbing-states mode on, stepping toward a lava cell raises
`KeyError: absorbing_reward_lava` (the key validation forbids the key that
the absorbing lava branch reads), instead of adding the absorbing lava
reward and continuing; with absorbing-states off the step adds `lava_reward`
`-1` and terminates as the claim says. -/
theorem absorbingLava_keyError_code_bug :
    init absorbingCfg = Except.ok absorbingEnv ∧
    absorbingEnv.gridAt (1, 9) = Tile.lava ∧
    (stepFull absorbingEnv 0).2 = Except.error "KeyError: absorbing_reward_lava" ∧
    (stepFull defaultEnv 0).2 = Except.ok (-1, true) :=
  ⟨rfl, rfl, rfl, rfl⟩

/-- Movement never changes the step counter. -/
theorem moveEnv_step_count (env : Env) (d : Int) :
    (moveEnv env d).step_count = env.step_count := by
  unfold moveEnv
  split <;> rfl

/-- Movement never changes the configured horizon. -/
theorem moveEnv_max_steps (env : Env) (d : Int) :
    (moveEnv env d).max_steps = env.max_steps := by
  unfold moveEnv
  split <;> rfl

/-- Movement never changes the reward specification. -/
theorem moveEnv_reward_spec (env : Env) (d : Int) :
    (moveEnv env d).reward_spec = env.reward_spec := by
  unfold moveEnv
  split <;> rfl

/-- Movement sets the heading to the dispatched direction unconditionally. -/
theorem moveEnv_agent_dir (env : Env) (d : Int) :
    (moveEnv env d).agent_dir = d := by
  unfold moveEnv
  split <;> rfl

/-- Movement onto a cell that is neither empty nor overlappable leaves the
agent position unchanged. -/
theorem moveEnv_agent_pos_of_blocked (env : Env) (d : Int)
    (h : ¬ (env.gridAt (frontPos env.agent_pos d) = Tile.empty ∨
      (env.gridAt (frontPos env.agent_pos d)).can_overlap = true)) :
    (moveEnv env d).agent_pos = env.agent_pos := by
  unfold moveEnv
  split
  · rename_i hcell
    exact absurd hcell h
  · rfl

/-- Every branch of the step body leaves the step counter at the value the
initial increment gave it: one more than before the call. -/
theorem stepFull_fst_step_count (env : Env) (a : Int) :
    (stepFull env a).1.step_count = env.step_count + 1 := by
  unfold stepFull stepCore
  cases getKey { env with step_count := env.step_count + 1 }.reward_spec STEP_PENALTY with
  | error e => rfl
  | ok pv =>
    cases newDir a with
    | none => rfl
    | some d =>
      simp only []
      split
      · exact moveEnv_step_count _ d
      · exact moveEnv_step_count _ d

/-- No branch of the step body changes the configured horizon. -/
theorem stepFull_fst_max_steps (env : Env) (a : Int) :
    (stepFull env a).1.max_steps = env.max_steps := by
  unfold stepFull stepCore
  cases getKey { env with step_count := env.step_count + 1 }.reward_spec STEP_PENALTY with
  | error e => rfl
  | ok pv =>
    cases newDir a with
    | none => rfl
    | some d =>
      simp only []
      split
      · exact moveEnv_max_steps _ d
      · exact moveEnv_max_steps _ d

/-- A returning step call made when the incremented step counter has
reached the horizon reports `done = true`. -/
theorem stepFull_done_of_horizon (env : Env) (a : Int) (r : Int) (d : Bool)
    (hok : (stepFull env a).2 = Except.ok (r, d))
    (hhor : env.max_steps ≤ env.step_count + 1) : d = true := by
  unfold stepFull stepCore at hok
  split at hok
  · simp at hok
  · split at hok
    · simp at hok
    · rename_i pv hpv d' hd'
      split at hok
      · simp at hok
      · rename_i rd hrd
        simp only [Except.ok.injEq, Prod.mk.injEq] at hok
        rw [← hok.2, moveEnv_max_steps, moveEnv_step_count]
        have : decide (env.max_steps ≤ env.step_count + 1) = true :=
          decide_eq_true hhor
        simp [this]

/-- When the penalty key resolves and the action is recognized, the state
the call returns is exactly the moved state of the incremented one. -/
theorem stepFull_fst_of_ok_dir (env : Env) (a d : Int) (pv : RVal)
    (hd : newDir a = some d)
    (hpv : List.lookup STEP_PENALTY env.reward_spec = some pv) :
    (stepFull env a).1 = moveEnv { env with step_count := env.step_count + 1 } d := by
  unfold stepFull stepCore
  have hpv' : getKey ({ env with step_count := env.step_count + 1 } : Env).reward_spec
      STEP_PENALTY = Except.ok pv := by
    show (match List.lookup STEP_PENALTY env.reward_spec with
      | some v => Except.ok v
      | none => Except.error ("KeyError: " ++ STEP_PENALTY)) = Except.ok pv
    rw [hpv]
  simp only [hpv', hd]
  split <;> rfl

/-- Claim C10: a step call with an action outside the four recognized codes
raises, but only after the step counter has already been incremented: the
environment the call leaves behind differs from the input exactly in the
step counter. -/
theorem invalid_action_increments_then_errors (env : Env) (a : Int)
    (ha : ¬ (0 ≤ a ∧ a ≤ 3)) :
    (stepFull env a).1 = { env with step_count := env.step_count + 1 } ∧
    isError (stepFull env a).2 = true := by
  have hnd : newDir a = none := by
    have h0 : ¬ a = 0 := by omega
    have h1 : ¬ a = 1 := by omega
    have h2 : ¬ a = 2 := by omega
    have h3 : ¬ a = 3 := by omega
    simp [newDir, h0, h1, h2, h3]
  unfold stepFull stepCore
  cases hk : getKey ({ env with step_count := env.step_count + 1 } : Env).reward_spec
      STEP_PENALTY with
  | error e => exact ⟨rfl, rfl⟩
  | ok pv =>
    rw [hnd]
    exact ⟨rfl, rfl⟩

/-- Claim C10 witness: action code 7 on the default environment. -/
theorem invalid_action_increments_then_errors_witness :
    (stepFull defaultEnv 7).1 = { defaultEnv with step_count := defaultEnv.step_count + 1 } ∧
    isError (stepFull defaultEnv 7).2 = true :=
  invalid_action_increments_then_errors defaultEnv 7 (by decide)

/-- Claim C8: every step call with a valid action increments the step
counter by exactly one, and a returning call whose incremented counter has
reached the horizon reports `done = true`. -/
theorem step_increment_and_horizon_termination (env : Env) (a r : Int) (d : Bool)
    (_ha : 0 ≤ a) (_ha' : a ≤ 3) :
    (stepFull env a).1.step_count = env.step_count + 1 ∧
    ((stepFull env a).2 = Except.ok (r, d) → env.max_steps ≤ env.step_count + 1 →
      d = true) :=
  ⟨stepFull_fst_step_count env a,
   fun hok hhor => stepFull_done_of_horizon env a r d hok hhor⟩

/-- Claim C8 witness: with `max_steps = 1`, the very first step of the
episode (action north) increments the counter to one and returns
`done = true` through the horizon check. -/
theorem step_increment_and_horizon_termination_witness :
    (stepFull maxOneEnv 1).1.step_count = maxOneEnv.step_count + 1 ∧ true = true :=
  ⟨(step_increment_and_horizon_termination maxOneEnv 1 0 true (by decide) (by decide)).1,
   (step_increment_and_horizon_termination maxOneEnv 1 0 true (by decide) (by decide)).2
     rfl (by decide)⟩

/-- Running no actions returns the state unchanged. -/
theorem runSteps_nil (env : Env) : runSteps env [] = Except.ok (env, []) := rfl

/-- Unfolding one returning step of a run. -/
theorem runSteps_cons_of_ok (env env1 : Env) (a r : Int) (d : Bool) (as : List Int)
    (h : stepFull env a = (env1, Except.ok (r, d))) :
    runSteps env (a :: as) =
      match runSteps env1 as with
      | Except.error e => Except.error e
      | Except.ok (envf, rs) => Except.ok (envf, (r, d) :: rs) := by
  conv_lhs => rw [runSteps]
  rw [h]

/-- Claim C3 (amended): across a run of returning step calls the step
counter grows by exactly the number of calls (hence it is monotonically
non-decreasing), and once the step counter has reached the horizon every
subsequent returning call reports `done = true`; a `done = true` produced by
a goal or lava tile alone is not stored and need not persist (see the
counterexample). -/
theorem stepCount_monotone_horizon_done_sticky (env : Env) (acts : List Int)
    (envf : Env) (rs : List (Int × Bool))
    (hrun : runSteps env acts = Except.ok (envf, rs)) :
    envf.step_count = env.step_count + rs.length ∧
    (env.max_steps ≤ env.step_count → ∀ pr ∈ rs, pr.2 = true) := by
  induction acts generalizing env rs with
  | nil =>
    simp only [runSteps, Except.ok.injEq, Prod.mk.injEq] at hrun
    obtain ⟨hef, hrs⟩ := hrun
    subst hef
    subst hrs
    simp
  | cons a as ih =>
    simp only [runSteps] at hrun
    split at hrun
    · exact absurd hrun (by simp)
    · rename_i env1 rd hstep
      split at hrun
      · exact absurd hrun (by simp)
      · rename_i envf' rs' hrec
        simp only [Except.ok.injEq, Prod.mk.injEq] at hrun
        obtain ⟨hef, hrs⟩ := hrun
        subst hef
        subst hrs
        have hc : env1.step_count = env.step_count + 1 := by
          have hx := stepFull_fst_step_count env a
          rw [hstep] at hx
          exact hx
        have hm : env1.max_steps = env.max_steps := by
          have hx := stepFull_fst_max_steps env a
          rw [hstep] at hx
          exact hx
        have ihh := ih env1 rs' hrec
        constructor
        · rw [ihh.1, hc, List.length_cons]
          omega
        · intro hhor pr hpr
          rcases List.mem_cons.mp hpr with hpr1 | hpr2
          · subst hpr1
            apply stepFull_done_of_horizon env a pr.1 pr.2 _
              (le_trans hhor (Nat.le_succ _))
            rw [hstep]
          · exact ihh.2 (by rw [hm, hc]; exact le_trans hhor (Nat.le_succ _)) pr hpr2

/-- Claim C3 witness: one step on a default-layout state whose counter has
already reached the horizon both increments the counter and reports
`done = true`. -/
theorem stepCount_monotone_horizon_done_sticky_witness :
    (trEnv 151 (2, 1) 3).step_count =
      (trEnv 150 (2, 1) 3).step_count + [((0 : Int), true)].length ∧
    ((0 : Int), true).2 = true := by
  have h := stepCount_monotone_horizon_done_sticky (trEnv 150 (2, 1) 3) [1]
    (trEnv 151 (2, 1) 3) [((0 : Int), true)] rfl
  exact ⟨h.1, h.2 (by decide) ((0 : Int), true) (by simp)⟩

/-- Claim C6: when the forward cell is a wall (never overlappable), the
agent position is unchanged by the call while the dispatched heading
persists; the dispatch maps west to 2, north to 3, east to 0, south to 1. -/
theorem wall_blocks_movement_heading_persists (env : Env) (a d : Int) (pv : RVal)
    (hd : newDir a = some d)
    (hpv : List.lookup STEP_PENALTY env.reward_spec = some pv)
    (hwall : env.gridAt (frontPos env.agent_pos d) = Tile.wall) :
    (stepFull env a).1.agent_pos = env.agent_pos ∧
    (stepFull env a).1.agent_dir = d ∧
    newDir 0 = some 2 ∧ newDir 1 = some 3 ∧ newDir 2 = some 0 ∧ newDir 3 = some 1 := by
  have h1 := stepFull_fst_of_ok_dir env a d pv hd hpv
  have hcell : ({ env with step_count := env.step_count + 1 } : Env).gridAt
      (frontPos ({ env with step_count := env.step_count + 1 } : Env).agent_pos d) =
      Tile.wall := hwall
  have hblocked : ¬ (({ env with step_count := env.step_count + 1 } : Env).gridAt
      (frontPos ({ env with step_count := env.step_count + 1 } : Env).agent_pos d) =
        Tile.empty ∨
      (({ env with step_count := env.step_count + 1 } : Env).gridAt
        (frontPos ({ env with step_count := env.step_count + 1 } : Env).agent_pos d)).can_overlap =
        true) := by
    rw [hcell]
    simp [Tile.can_overlap]
  refine ⟨?_, ?_, rfl, rfl, rfl, rfl⟩
  · rw [h1, moveEnv_agent_pos_of_blocked _ d hblocked]
  · rw [h1, moveEnv_agent_dir]

/-- Claim C6 witness: on the default environment, action south faces the
bottom wall ring: the position stays `(2, 9)` while the heading becomes 1. -/
theorem wall_blocks_movement_heading_persists_witness :
    (stepFull defaultEnv 3).1.agent_pos = defaultEnv.agent_pos ∧
    (stepFull defaultEnv 3).1.agent_dir = 1 ∧
    newDir 0 = some 2 ∧ newDir 1 = some 3 ∧ newDir 2 = some 0 ∧ newDir 3 = some 1 :=
  wall_blocks_movement_heading_persists defaultEnv 3 1 (RVal.i 0) rfl rfl rfl

/-- A returning reward computation pays out exactly the step penalty plus
the single clause that the resolved cell's kind selects. -/
theorem rewardDone_ok_contrib (spec : RewardSpec) (cell : Tile) (base r : Int) (d : Bool)
    (h : rewardDone spec cell base = Except.ok (r, d)) :
    contribOf spec cell = Except.ok (r - base) := by
  cases cell with
  | empty =>
    unfold rewardDone at h
    simp at h
    unfold contribOf
    simp only [Except.ok.injEq]
    omega
  | wall =>
    unfold rewardDone at h
    simp at h
    unfold contribOf
    simp only [Except.ok.injEq]
    omega
  | spiky =>
    unfold rewardDone at h
    simp at h
    unfold contribOf
    cases hrk : getKey spec RISKY_TILE_REWARD with
    | error e => rw [hrk] at h; simp at h
    | ok v =>
      rw [hrk] at h
      simp at h
      simp only [Except.ok.injEq]
      omega
  | goal =>
    unfold rewardDone at h
    simp at h
    unfold contribOf
    cases hav : getKey spec ABSORBING_STATES with
    | error e => rw [hav] at h; simp at h
    | ok av =>
      rw [hav] at h
      simp at h
      cases htr : av.truthy with
      | true =>
        rw [htr] at h
        simp at h
        cases hag : getKey spec ABSORBING_REWARD_GOAL with
        | error e => rw [hag] at h; simp at h
        | ok v =>
          rw [hag] at h
          simp at h
          obtain ⟨h1, h2⟩ := h
          simp only [htr]
          simp
          omega
      | false =>
        rw [htr] at h
        simp at h
        cases hgr : getKey spec GOAL_REWARD with
        | error e => rw [hgr] at h; simp at h
        | ok v =>
          rw [hgr] at h
          simp at h
          obtain ⟨h1, h2⟩ := h
          simp only [htr]
          simp
          omega
  | lava =>
    unfold rewardDone at h
    simp at h
    unfold contribOf
    cases hav : getKey spec ABSORBING_STATES with
    | error e => rw [hav] at h; simp at h
    | ok av =>
      rw [hav] at h
      simp at h
      cases htr : av.truthy with
      | true =>
        rw [htr] at h
        simp at h
        cases hal : getKey spec ABSORBING_REWARD_LAVA with
        | error e => rw [hal] at h; simp at h
        | ok v =>
          rw [hal] at h
          simp at h
          obtain ⟨h1, h2⟩ := h
          simp only [htr]
          simp
          omega
      | false =>
        rw [htr] at h
        simp at h
        cases hlr : getKey spec LAVA_REWARD with
        | error e => rw [hlr] at h; simp at h
        | ok v =>
          rw [hlr] at h
          simp at h
          obtain ⟨h1, h2⟩ := h
          simp only [htr]
          simp
          omega

/-- Claim C7: on every returning step call with a valid action, the reward
equals the step penalty plus the single tile-specific contribution that the
resolved forward cell's kind selects (`contribOf` fires at most one of the
goal / lava / risky-floor / none clauses, because a cell has one kind). -/
theorem reward_step_penalty_plus_unique_contribution (env : Env) (a d : Int)
    (pv : RVal) (r : Int) (dn : Bool)
    (hd : newDir a = some d)
    (hpv : List.lookup STEP_PENALTY env.reward_spec = some pv)
    (hok : (stepFull env a).2 = Except.ok (r, dn)) :
    contribOf env.reward_spec (env.gridAt (frontPos env.agent_pos d)) =
      Except.ok (r - pv.toInt) := by
  unfold stepFull stepCore at hok
  have hpv' : getKey ({ env with step_count := env.step_count + 1 } : Env).reward_spec
      STEP_PENALTY = Except.ok pv := by
    show (match List.lookup STEP_PENALTY env.reward_spec with
      | some v => Except.ok v
      | none => Except.error ("KeyError: " ++ STEP_PENALTY)) = Except.ok pv
    rw [hpv]
  simp only [hpv', hd] at hok
  rw [moveEnv_reward_spec] at hok
  split at hok
  · simp at hok
  · rename_i rd hrd
    simp only [Except.ok.injEq, Prod.mk.injEq] at hok
    have hmain := rewardDone_ok_contrib env.reward_spec
      (env.gridAt (frontPos env.agent_pos d)) pv.toInt rd.1 rd.2 hrd
    rw [hok.1] at hmain
    exact hmain

/-- Claim C7 witness: the default environment's first step west resolves a
lava cell; the returned reward `-1` is the step penalty `0` plus the lava
contribution `-1`. -/
theorem reward_step_penalty_plus_unique_contribution_witness :
    contribOf defaultEnv.reward_spec (defaultEnv.gridAt (frontPos defaultEnv.agent_pos 2)) =
      Except.ok (-1 - (RVal.i 0).toInt) :=
  reward_step_penalty_plus_unique_contribution defaultEnv 0 2 (RVal.i 0) (-1) true
    rfl rfl rfl

/-- Claim C5 (amended): under the earlier constructor checks (sizes,
reward keys, slip probability), construction succeeds exactly when the
start position satisfies `1 < x < width - 1` and `1 < y < height - 1`
(the border-adjacent column `x = 1` and row `y = 1` are rejected along
with the wall border itself) and avoids every goal and effective lava
position; otherwise it fails with an `InvalidConfiguration` error and no
environment is returned. (The Python `type(...) is tuple` / `is int`
checks hold by typing in this embedding.) -/
theorem init_start_position_validation (cfg : Config)
    (h1 : 6 ≤ cfg.width) (h2 : 6 ≤ cfg.height)
    (h3 : sameKeys cfg.reward_spec = true)
    (h4 : 0 ≤ cfg.slip_proba) (h5 : cfg.slip_proba < 1) :
    init cfg = Except.ok (buildEnv cfg) ↔
      (1 < cfg.agent_start_pos.1 ∧ cfg.agent_start_pos.1 < cfg.width - 1 ∧
        1 < cfg.agent_start_pos.2 ∧ cfg.agent_start_pos.2 < cfg.height - 1 ∧
        cfg.agent_start_pos ∉ cfg.goal_positions ∧
        cfg.agent_start_pos ∉ lavaEff cfg) := by
  unfold init
  rw [if_neg (by simp [h1, h2]), if_neg (by simp [h3]), if_neg (by simp [h4, h5])]
  by_cases hx : 1 < cfg.agent_start_pos.1 ∧ cfg.agent_start_pos.1 < cfg.width - 1
  · by_cases hy : 1 < cfg.agent_start_pos.2 ∧ cfg.agent_start_pos.2 < cfg.height - 1
    · by_cases hg : cfg.agent_start_pos ∈ cfg.goal_positions
      · simp [hx, hy, hg]
      · by_cases hl : cfg.agent_start_pos ∈ lavaEff cfg
        · simp [hx, hy, hg, hl]
        · simp [hx, hy, hg, hl]
    · simp [hx, hy]
      tauto
  · simp [hx]
    tauto

/-- Claim C5 witness: the default configuration satisfies all start
position conditions, so its construction returns the environment. -/
theorem init_start_position_validation_witness :
    init defaultCfg = Except.ok (buildEnv defaultCfg) :=
  (init_start_position_validation defaultCfg (by decide) (by decide) (by decide)
      (by decide) (by decide)).mpr
    ⟨by decide, by decide, by decide, by decide, by decide, by decide⟩

/-- A configuration whose start `(1, 2)` lies in the claimed interior range
`1..width-2` / `1..height-2` and in neither the goal list nor the
(explicitly empty) lava list. -/
def borderAdjacentCfg : Config :=
  { defaultCfg with
    agent_start_pos := (1, 2)
    goal_positions := [(3, 3)]
    lava_positions := some []
    spiky_positions := some [] }

/-- Claim C5 counterexample: the start position `(1, 2)` lies inside the
wall border (`1 ≤ x ≤ width - 2`, `1 ≤ y ≤ height - 2`) and collides with
no goal or lava position, yet construction fails: the constructor asserts
`start_x > 1` (and `start_y > 1`), rejecting the border-adjacent column
`x = 1` that the claim says must be accepted. -/
theorem start_x_one_rejected_counterexample :
    ((1 : Int) ≤ borderAdjacentCfg.agent_start_pos.1 ∧
      borderAdjacentCfg.agent_start_pos.1 ≤ borderAdjacentCfg.width - 2 ∧
      (1 : Int) ≤ borderAdjacentCfg.agent_start_pos.2 ∧
      borderAdjacentCfg.agent_start_pos.2 ≤ borderAdjacentCfg.height - 2 ∧
      borderAdjacentCfg.agent_start_pos ∉ borderAdjacentCfg.goal_positions ∧
      borderAdjacentCfg.agent_start_pos ∉ lavaEff borderAdjacentCfg) ∧
    init borderAdjacentCfg = Except.error "InvalidConfiguration: start x" :=
  ⟨by decide, rfl⟩

/-- A successful construction returns exactly the freshly generated
environment. -/
theorem init_ok_elim (cfg : Config) (env : Env) (h : init cfg = Except.ok env) :
    env = buildEnv cfg := by
  unfold init at h
  split_ifs at h
  all_goals simp_all

/-- Writing the same tile kind at every position of a list overrides
whatever the grid held there and touches nothing else. -/
theorem putAll_apply (g : Grid) (t : Tile) (ps : List (Int × Int)) (q : Int × Int) :
    putAll g t ps q = if q ∈ ps then t else g q := by
  induction ps generalizing g with
  | nil => simp [putAll]
  | cons p ps ih =>
    show putAll (putObj g t p) t ps q = _
    rw [ih]
    by_cases hq : q = p
    · subst hq
      simp [putObj]
    · simp [putObj, hq, List.mem_cons]

/-- Claim C9: `_gen_grid` writes lava first, risky-floor second, goal last,
so on every constructed environment the tile kind at a coordinate present
in several position sets is the one written last: goal wins over
risky-floor wins over lava; overlapping sets are legal constructor input,
not an error. -/
theorem placement_precedence (cfg : Config) (env : Env)
    (h : init cfg = Except.ok env) (p : Int × Int) :
    (p ∈ cfg.goal_positions → env.gridAt p = Tile.goal) ∧
    (p ∉ cfg.goal_positions → p ∈ spikyEff cfg → env.gridAt p = Tile.spiky) ∧
    (p ∉ cfg.goal_positions → p ∉ spikyEff cfg → p ∈ lavaEff cfg →
      env.gridAt p = Tile.lava) := by
  have he := init_ok_elim cfg env h
  subst he
  unfold Env.gridAt
  dsimp only [buildEnv]
  unfold genGrid
  rw [putAll_apply, putAll_apply, putAll_apply]
  refine ⟨fun hg => ?_, fun hg hs => ?_, fun hg hs hl => ?_⟩
  · simp [hg]
  · simp [hg, hs]
  · simp [hg, hs, hl]

/-- Claim C9 witness: in the default configuration the coordinate `(1, 3)`
is both a default lava position and the goal position, construction
accepts this overlap, and the generated tile there is the goal. -/
theorem placement_precedence_witness :
    (1, 3) ∈ lavaEff defaultCfg ∧ defaultEnv.gridAt (1, 3) = Tile.goal :=
  ⟨by decide, (placement_precedence defaultCfg defaultEnv rfl (1, 3)).1 (by decide)⟩

/-- Claim C3 counterexample: on the default environment, six steps north
and one step west reach the goal and return `done = true` at the seventh
call, yet the eighth call (east, onto a risky tile) returns
`done = false` again: `done` is not sticky within the episode. -/
theorem done_not_sticky_counterexample :
    runSteps defaultEnv [1, 1, 1, 1, 1, 1, 0, 2] =
      Except.ok (trEnv 8 (2, 3) 0,
        [(0, false), (0, false), (0, false), (0, false), (0, false), (0, false),
          (1, true), (0, false)]) := by
  rw [runSteps_cons_of_ok defaultEnv (trEnv 1 (2, 8) 3) 1 0 false _ rfl]
  rw [runSteps_cons_of_ok (trEnv 1 (2, 8) 3) (trEnv 2 (2, 7) 3) 1 0 false _ rfl]
  rw [runSteps_cons_of_ok (trEnv 2 (2, 7) 3) (trEnv 3 (2, 6) 3) 1 0 false _ rfl]
  rw [runSteps_cons_of_ok (trEnv 3 (2, 6) 3) (trEnv 4 (2, 5) 3) 1 0 false _ rfl]
  rw [runSteps_cons_of_ok (trEnv 4 (2, 5) 3) (trEnv 5 (2, 4) 3) 1 0 false _ rfl]
  rw [runSteps_cons_of_ok (trEnv 5 (2, 4) 3) (trEnv 6 (2, 3) 3) 1 0 false _ rfl]
  rw [runSteps_cons_of_ok (trEnv 6 (2, 3) 3) (trEnv 7 (1, 3) 2) 0 1 true _ rfl]
  rw [runSteps_cons_of_ok (trEnv 7 (1, 3) 2) (trEnv 8 (2, 3) 0) 2 0 false _ rfl]
  rfl

/-- Claim C4 (amended): from the default start `(2, 9)`, six actions north
followed by one action west reach the goal tile at `(1, 3)`, with total
accumulated reward exactly `1`, `done = true` on the terminating step, and
step count equal to the number of actions taken; north alone walks column 2
and never reaches the goal (see the counterexample). -/
theorem default_path_north_west_reaches_goal :
    runSteps defaultEnv [1, 1, 1, 1, 1, 1, 0] =
      Except.ok (trEnv 7 (1, 3) 2,
        [(0, false), (0, false), (0, false), (0, false), (0, false), (0, false),
          (1, true)]) ∧
    totalReward [((0 : Int), false), (0, false), (0, false), (0, false), (0, false),
        (0, false), (1, true)] = 1 ∧
    defaultEnv.gridAt (1, 3) = Tile.goal ∧
    (trEnv 7 (1, 3) 2).step_count = 7 := by
  refine ⟨?_, rfl, rfl, rfl⟩
  rw [runSteps_cons_of_ok defaultEnv (trEnv 1 (2, 8) 3) 1 0 false _ rfl]
  rw [runSteps_cons_of_ok (trEnv 1 (2, 8) 3) (trEnv 2 (2, 7) 3) 1 0 false _ rfl]
  rw [runSteps_cons_of_ok (trEnv 2 (2, 7) 3) (trEnv 3 (2, 6) 3) 1 0 false _ rfl]
  rw [runSteps_cons_of_ok (trEnv 3 (2, 6) 3) (trEnv 4 (2, 5) 3) 1 0 false _ rfl]
  rw [runSteps_cons_of_ok (trEnv 4 (2, 5) 3) (trEnv 5 (2, 4) 3) 1 0 false _ rfl]
  rw [runSteps_cons_of_ok (trEnv 5 (2, 4) 3) (trEnv 6 (2, 3) 3) 1 0 false _ rfl]
  rw [runSteps_cons_of_ok (trEnv 6 (2, 3) 3) (trEnv 7 (1, 3) 2) 0 1 true _ rfl]
  rfl

/-- A north step taken at `(2, 1)` of the default layout faces the wall
ring: position unchanged, reward zero, `done` exactly when the horizon is
reached. -/
theorem stepFull_north_blocked (n : Nat) :
    stepFull (trEnv n (2, 1) 3) 1 =
      (trEnv (n + 1) (2, 1) 3, Except.ok (0, decide (150 ≤ n + 1))) := rfl

/-- Running `k` north actions from `(2, 1)` with `n + k = 150` steps in
place until the horizon fires on the final call. -/
theorem runSteps_north_blocked : ∀ (k n : Nat), n + k = 150 → 1 ≤ k →
    runSteps (trEnv n (2, 1) 3) (List.replicate k 1) =
      Except.ok (trEnv 150 (2, 1) 3,
        List.replicate (k - 1) ((0 : Int), false) ++ [((0 : Int), true)]) := by
  intro k
  induction k with
  | zero => intro n hsum hk; omega
  | succ k ih =>
    intro n hsum hk
    cases k with
    | zero =>
      have hn : n = 149 := by omega
      subst hn
      rw [show List.replicate 1 (1 : Int) = [1] from rfl]
      rw [runSteps_cons_of_ok (trEnv 149 (2, 1) 3) (trEnv 150 (2, 1) 3) 1 0 true []
        (stepFull_north_blocked 149)]
      rfl
    | succ m =>
      have hlt : ¬ (150 ≤ n + 1) := by omega
      have hstep : stepFull (trEnv n (2, 1) 3) 1 =
          (trEnv (n + 1) (2, 1) 3, Except.ok (0, false)) := by
        rw [stepFull_north_blocked n, decide_eq_false hlt]
      rw [List.replicate_succ]
      rw [runSteps_cons_of_ok (trEnv n (2, 1) 3) (trEnv (n + 1) (2, 1) 3) 1 0 false _
        hstep]
      rw [ih (n + 1) (by omega) (by omega)]
      simp [List.replicate_succ]

/-- One returning prefix of a run unfolds the run of the concatenation. -/
theorem runSteps_append_of_ok (env e1 : Env) (as bs : List Int)
    (rs : List (Int × Bool)) (h : runSteps env as = Except.ok (e1, rs)) :
    runSteps env (as ++ bs) =
      match runSteps e1 bs with
      | Except.error e => Except.error e
      | Except.ok (e2, rs2) => Except.ok (e2, rs ++ rs2) := by
  induction as generalizing env rs with
  | nil =>
    simp only [runSteps, Except.ok.injEq, Prod.mk.injEq] at h
    obtain ⟨he, hrs⟩ := h
    subst he
    subst hrs
    simp only [List.nil_append]
    cases hb : runSteps env bs with
    | error e => rfl
    | ok pr =>
      cases pr with
      | mk e2 rs2 => rfl
  | cons a as ih =>
    simp only [runSteps] at h
    split at h
    · exact absurd h (by simp)
    · rename_i env1 rd hstep
      split at h
      · exact absurd h (by simp)
      · rename_i envf' rs' hrec
        simp only [Except.ok.injEq, Prod.mk.injEq] at h
        obtain ⟨he, hrs⟩ := h
        subst he
        subst hrs
        rw [List.cons_append]
        rw [runSteps_cons_of_ok env env1 a rd.1 rd.2 (as ++ bs) (by rw [hstep])]
        rw [ih env1 rs' hrec]
        cases hb : runSteps envf' bs with
        | error e => rfl
        | ok pr =>
          cases pr with
          | mk e2 rs2 => simp

/-- The first eight north actions of the default episode walk the risky
column from `(2, 9)` down to `(2, 1)` with zero reward and no termination. -/
theorem runSteps_north_first_eight :
    runSteps defaultEnv [1, 1, 1, 1, 1, 1, 1, 1] =
      Except.ok (trEnv 8 (2, 1) 3, List.replicate 8 ((0 : Int), false)) := by
  rw [runSteps_cons_of_ok defaultEnv (trEnv 1 (2, 8) 3) 1 0 false _ rfl]
  rw [runSteps_cons_of_ok (trEnv 1 (2, 8) 3) (trEnv 2 (2, 7) 3) 1 0 false _ rfl]
  rw [runSteps_cons_of_ok (trEnv 2 (2, 7) 3) (trEnv 3 (2, 6) 3) 1 0 false _ rfl]
  rw [runSteps_cons_of_ok (trEnv 3 (2, 6) 3) (trEnv 4 (2, 5) 3) 1 0 false _ rfl]
  rw [runSteps_cons_of_ok (trEnv 4 (2, 5) 3) (trEnv 5 (2, 4) 3) 1 0 false _ rfl]
  rw [runSteps_cons_of_ok (trEnv 5 (2, 4) 3) (trEnv 6 (2, 3) 3) 1 0 false _ rfl]
  rw [runSteps_cons_of_ok (trEnv 6 (2, 3) 3) (trEnv 7 (2, 2) 3) 1 0 false _ rfl]
  rw [runSteps_cons_of_ok (trEnv 7 (2, 2) 3) (trEnv 8 (2, 1) 3) 1 0 false _ rfl]
  rfl

/-- Claim C4 counterexample: taking the action north on every step of the
whole default episode (150 actions, the full horizon) never reaches the
goal: the agent ends at `(2, 1)` in column 2, every call before the last
returns `done = false` and reward `0`, the last call terminates through
the horizon only, and the total accumulated reward is `0`, not `1`. -/
theorem north_only_misses_goal_counterexample :
    runSteps defaultEnv (List.replicate 150 1) =
      Except.ok (trEnv 150 (2, 1) 3,
        List.replicate 149 ((0 : Int), false) ++ [((0 : Int), true)]) ∧
    totalReward (List.replicate 149 ((0 : Int), false) ++ [((0 : Int), true)]) = 0 ∧
    (trEnv 150 (2, 1) 3).agent_pos = (2, 1) := by
  refine ⟨?_, ?_, rfl⟩
  · have hsplit : List.replicate 150 (1 : Int) =
        [1, 1, 1, 1, 1, 1, 1, 1] ++ List.replicate 142 1 := by
      rw [show (150 : Nat) = 8 + 142 from rfl, List.replicate_add]
      rfl
    rw [hsplit,
      runSteps_append_of_ok defaultEnv (trEnv 8 (2, 1) 3) _ _
        (List.replicate 8 ((0 : Int), false)) runSteps_north_first_eight,
      runSteps_north_blocked 142 8 rfl (by omega)]
    rfl
  · simp [totalReward]

end RiskyPath
